import Mathlib

/-!
Shallow embedding of the `chocolatemaps` persistence layer
(`data_manager.py`, `database_manager.py`, `main.py`) and proofs about it.

Modelling conventions:
* Python `float` fields (`price`, `lat`, `lon`) are pure pass-through data in
  every operation, so they are embedded as `Int`; strings stay `String`;
  the formatted timestamp string is embedded as a `Nat` instant.
* The JSON file is a value `FS`: the real file and the optional temporary
  sibling file, each either absent or holding some content.  Content that is
  not a JSON array of records (parse error, non-list) is `corrupt`.
* I/O that can fail outside the program's control (the serialize/write step of
  `_save_pins`, the database connection, statement execution, `os.path.getsize`)
  is a parameter of the embedded function: a `WriteOutcome`, a `Bool`, or a
  size function, universally quantified in the theorems.
-/

/-- A record of the file backend, as built by `DataManager.add_pin`
(`data_manager.py:109-119`). -/
structure Pin where
  price : Int
  location : String
  brand : String
  fact : String
  lat : Int
  lon : Int
  timestamp : Nat
  id : Nat
  is_multi_pack : Bool
deriving DecidableEq, Repr

/-- Content of a file slot: a parseable JSON array of records, or anything
else (malformed JSON, a non-list value, ...). -/
inductive FileContent
  | pins (ps : List Pin)
  | corrupt
deriving DecidableEq, Repr

/-- The file system state seen by one `DataManager`: the pins file
(`map_pins.json`) and its temporary sibling (`map_pins.json.tmp`),
each possibly absent. -/
structure FS where
  realFile : Option FileContent
  tempFile : Option FileContent
deriving DecidableEq, Repr

/-- Outcome of the fallible serialize-and-write step of `_save_pins`
(`data_manager.py:58-62`): either the temp file is written and renamed over
the real file, or some exception occurs before the rename, leaving the temp
file in an arbitrary state `part`; the subsequent best-effort `os.remove`
succeeds iff `removeOk`. -/
inductive WriteOutcome
  | ok
  | failBeforeRename (part : Option FileContent) (removeOk : Bool)

/-- Embeds `DataManager._save_pins` (`data_manager.py:44-73`): atomic write via a
temporary sibling file plus rename; on failure the temp file is removed on a
best-effort basis and `False` is returned, the real file untouched. -/
def DataManager.save_pins (fs : FS) (ps : List Pin) (out : WriteOutcome) :
    Bool × FS :=
  match out with
  | .ok => (true, { realFile := some (.pins ps), tempFile := none })
  | .failBeforeRename part removeOk =>
      (false, { realFile := fs.realFile,
                tempFile := if removeOk then none else part })

/-- Embeds `DataManager.load_pins` (`data_manager.py:75-88`): parse the real file;
a missing file, a parse error or a non-list value yields `[]`. -/
def DataManager.load_pins (fs : FS) : List Pin :=
  match fs.realFile with
  | some (.pins ps) => ps
  | _ => []

/-- Embeds `DataManager._ensure_file_exists` (`data_manager.py:39-42`): if the pins
file is absent, write an empty array (result of the save is discarded). -/
def DataManager.ensure_file_exists (fs : FS) (out : WriteOutcome) : FS :=
  if fs.realFile.isNone then (DataManager.save_pins fs [] out).2 else fs

/-- Embeds `DataManager.add_pin` (`data_manager.py:90-126`): load, append a record
with `id = len(pins) + 1` and `timestamp = now`, save the whole list.
`now` is the instant `datetime.now()` returns inside the call. -/
def DataManager.add_pin (fs : FS) (price : Int) (location brand fact : String)
    (lat lon : Int) (is_multi_pack : Bool) (now : Nat) (out : WriteOutcome) :
    Bool × FS :=
  let pins := DataManager.load_pins fs
  let new_pin : Pin :=
    { price := price, location := location, brand := brand, fact := fact,
      lat := lat, lon := lon, timestamp := now, id := pins.length + 1,
      is_multi_pack := is_multi_pack }
  DataManager.save_pins fs (pins ++ [new_pin]) out

/-- Embeds `DataManager.delete_pin` (`data_manager.py:128-150`): bounds-check the
index; in range, `pins.pop(pin_index)` then save; out of range, return
`False` with nothing written. -/
def DataManager.delete_pin (fs : FS) (pin_index : Int) (out : WriteOutcome) :
    Bool × FS :=
  let pins := DataManager.load_pins fs
  if 0 ≤ pin_index ∧ pin_index < (pins.length : Int) then
    DataManager.save_pins fs (pins.eraseIdx pin_index.toNat) out
  else
    (false, fs)

/-- Embeds `DataManager.clear_all_pins` (`data_manager.py:152-159`). -/
def DataManager.clear_all_pins (fs : FS) (out : WriteOutcome) : Bool × FS :=
  DataManager.save_pins fs [] out

/-- Embeds `DataManager.get_pin_count` (`data_manager.py:161-168`). -/
def DataManager.get_pin_count (fs : FS) : Nat :=
  (DataManager.load_pins fs).length

/-- C6: for the file backend holding `n` records, `delete_pin` with an
in-range index (and a non-failing write) removes exactly the record at that
position, leaving all other records in their original relative order; with
an out-of-range index it returns `false` and leaves the stored collection
unchanged (and, being a total function, never raises). -/
theorem delete_pin_spec (fs : FS) (i : Int) :
    (0 ≤ i → i < ((DataManager.load_pins fs).length : Int) →
      DataManager.delete_pin fs i .ok =
        (true, FS.mk (some (FileContent.pins
            ((DataManager.load_pins fs).take i.toNat ++
             (DataManager.load_pins fs).drop (i.toNat + 1)))) none)) ∧
    (∀ out : WriteOutcome,
      ¬ (0 ≤ i ∧ i < ((DataManager.load_pins fs).length : Int)) →
      DataManager.delete_pin fs i out = (false, fs)) := by
  constructor
  · intro h0 hlt
    simp only [DataManager.delete_pin, DataManager.save_pins]
    rw [if_pos ⟨h0, hlt⟩]
    rw [List.eraseIdx_eq_take_drop_succ]
  · intro out hout
    simp only [DataManager.delete_pin]
    rw [if_neg hout]

/-- A sample record used in concrete evaluations. -/
def samplePin (n : Nat) : Pin :=
  { price := (n : Int), location := "loc", brand := "brand", fact := "note",
    lat := 51, lon := 0, timestamp := n, id := n, is_multi_pack := false }

/-- A sample file system whose pins file holds three records. -/
def sampleFS3 : FS :=
  FS.mk (some (FileContent.pins [samplePin 1, samplePin 2, samplePin 3])) none

/-- Witness for `delete_pin_spec` at a concrete store of three records:
deleting index 1 keeps records 0 and 2 in order; deleting index 5 fails and
changes nothing. -/
theorem delete_pin_spec_witness :
    (DataManager.delete_pin sampleFS3 1 .ok =
      (true, FS.mk (some (FileContent.pins [samplePin 1, samplePin 3]))
        none)) ∧
    (DataManager.delete_pin sampleFS3 5 .ok = (false, sampleFS3)) := by
  refine ⟨?_, (delete_pin_spec sampleFS3 5).2 .ok (by decide)⟩
  have h := (delete_pin_spec sampleFS3 1).1 (by decide) (by decide)
  simpa using h

/-- C7: after a successful add on the file backend, `load_pins` returns the
previous records followed by the new record; the new record's submitted
fields are intact, its `id` is the previous record count plus one, and its
timestamp (`now`, the clock reading inside the call) is no earlier than the
instant `t0` at which the call was made. -/
theorem add_pin_then_load (fs : FS) (price : Int) (location brand fact : String)
    (lat lon : Int) (is_multi_pack : Bool) (t0 now : Nat) (h : t0 ≤ now) :
    (DataManager.add_pin fs price location brand fact lat lon is_multi_pack
        now .ok).1 = true ∧
    DataManager.load_pins
        (DataManager.add_pin fs price location brand fact lat lon is_multi_pack
          now .ok).2 =
      DataManager.load_pins fs ++
        [Pin.mk price location brand fact lat lon now
          ((DataManager.load_pins fs).length + 1) is_multi_pack] ∧
    t0 ≤ (Pin.mk price location brand fact lat lon now
          ((DataManager.load_pins fs).length + 1) is_multi_pack).timestamp := by
  refine ⟨rfl, rfl, h⟩

/-- Witness for `add_pin_then_load`: adding to the three-record store at
instant 5 (call time 4) succeeds and appends a record with id 4. -/
theorem add_pin_then_load_witness :
    (DataManager.add_pin sampleFS3 7 "shop" "twirl" "" 51 0 true 5 .ok).1
        = true ∧
    DataManager.load_pins
        (DataManager.add_pin sampleFS3 7 "shop" "twirl" "" 51 0 true 5 .ok).2 =
      [samplePin 1, samplePin 2, samplePin 3,
        Pin.mk 7 "shop" "twirl" "" 51 0 5 4 true] := by
  have h := add_pin_then_load sampleFS3 7 "shop" "twirl" "" 51 0 true 4 5
    (by decide)
  exact ⟨h.1, by simpa using h.2.1⟩

/-- C8: if a `_save_pins` write fails at any point before the rename, the
function returns `false`, the real file is unchanged — so the previously
persisted content is still what a subsequent `load_pins` parses — and when
the best-effort removal succeeds the temporary sibling file is gone. -/
theorem save_pins_fail_atomic (fs : FS) (ps : List Pin)
    (part : Option FileContent) (removeOk : Bool) :
    (DataManager.save_pins fs ps (.failBeforeRename part removeOk)).1
        = false ∧
    (DataManager.save_pins fs ps (.failBeforeRename part removeOk)).2.realFile
        = fs.realFile ∧
    DataManager.load_pins
        (DataManager.save_pins fs ps (.failBeforeRename part removeOk)).2
        = DataManager.load_pins fs ∧
    (∀ ps0 : List Pin, fs.realFile = some (FileContent.pins ps0) →
      DataManager.load_pins
        (DataManager.save_pins fs ps (.failBeforeRename part removeOk)).2
        = ps0) ∧
    (removeOk = true →
      (DataManager.save_pins fs ps (.failBeforeRename part removeOk)).2.tempFile
        = none) := by
  refine ⟨rfl, rfl, rfl, ?_, ?_⟩
  · intro ps0 h0
    simp [DataManager.load_pins, DataManager.save_pins, h0]
  · intro hrm
    simp [DataManager.save_pins, hrm]

/-- Witness for `save_pins_fail_atomic`: a failed write over the
three-record store leaves its records loadable and removes the temp file. -/
theorem save_pins_fail_atomic_witness :
    (DataManager.save_pins sampleFS3 []
        (.failBeforeRename (some .corrupt) true)).1 = false ∧
    DataManager.load_pins
        (DataManager.save_pins sampleFS3 []
          (.failBeforeRename (some .corrupt) true)).2
        = [samplePin 1, samplePin 2, samplePin 3] ∧
    (DataManager.save_pins sampleFS3 []
        (.failBeforeRename (some .corrupt) true)).2.tempFile = none := by
  have h := save_pins_fail_atomic sampleFS3 [] (some .corrupt) true
  exact ⟨h.1, h.2.2.2.1 _ rfl, h.2.2.2.2 rfl⟩

/-- One operation of the file backend's mutating interface, together with the
world inputs it consumes (clock reading, write outcome). -/
inductive FileOp
  | add (price : Int) (location brand fact : String) (lat lon : Int)
      (is_multi_pack : Bool) (now : Nat) (out : WriteOutcome)
  | delete (pin_index : Int) (out : WriteOutcome)
  | clear (out : WriteOutcome)

/-- Whether an operation is a delete. -/
def FileOp.is_delete : FileOp → Bool
  | .delete _ _ => true
  | _ => false

/-- Run one file-backend operation, keeping the resulting file state. -/
def runFileOp (fs : FS) : FileOp → FS
  | .add price location brand fact lat lon is_multi_pack now out =>
      (DataManager.add_pin fs price location brand fact lat lon is_multi_pack
        now out).2
  | .delete pin_index out => (DataManager.delete_pin fs pin_index out).2
  | .clear out => (DataManager.clear_all_pins fs out).2

/-- Run a sequence of file-backend operations. -/
def runFileOps (fs : FS) (ops : List FileOp) : FS :=
  ops.foldl runFileOp fs

/-- The store of a freshly constructed `DataManager` whose file was absent:
`_ensure_file_exists` has written an empty array. -/
def freshFS : FS := FS.mk (some (FileContent.pins [])) none

/-- C1 counterexample: add, add, delete index 0, add — the remaining records
both carry id 2, so ids are not pairwise distinct in the file backend. -/
theorem file_ids_collide_after_delete :
    ¬ ((DataManager.load_pins (runFileOps freshFS
        [FileOp.add 1 "a" "b" "c" 0 0 false 0 .ok,
         FileOp.add 2 "a" "b" "c" 0 0 false 1 .ok,
         FileOp.delete 0 .ok,
         FileOp.add 3 "a" "b" "c" 0 0 false 2 .ok])).map Pin.id).Nodup := by
  decide

/-- The file backend's ids are exactly positions shifted by one. -/
def idsCanonical (fs : FS) : Prop :=
  (DataManager.load_pins fs).map Pin.id =
    List.range' 1 (DataManager.load_pins fs).length

theorem range'_one_concat (n : Nat) :
    List.range' 1 n ++ [n + 1] = List.range' 1 (n + 1) := by
  rw [List.range'_concat]
  simp [Nat.add_comm]

theorem idsCanonical_runFileOp (fs : FS) (op : FileOp)
    (hop : op.is_delete = false) (h : idsCanonical fs) :
    idsCanonical (runFileOp fs op) := by
  cases op with
  | add price location brand fact lat lon is_multi_pack now out =>
    cases out with
    | ok =>
      unfold idsCanonical at h ⊢
      simp only [runFileOp, DataManager.add_pin, DataManager.save_pins,
        DataManager.load_pins]
      simp only [DataManager.load_pins] at h
      rw [List.map_append, h, List.length_append]
      simpa using range'_one_concat
        (match fs.realFile with
          | some (FileContent.pins ps) => ps
          | _ => []).length
    | failBeforeRename part removeOk =>
      unfold idsCanonical at h ⊢
      simp only [runFileOp, DataManager.add_pin, DataManager.save_pins,
        DataManager.load_pins] at h ⊢
      exact h
  | delete pin_index out => simp [FileOp.is_delete] at hop
  | clear out =>
    cases out with
    | ok =>
      unfold idsCanonical
      simp [runFileOp, DataManager.clear_all_pins, DataManager.save_pins,
        DataManager.load_pins]
    | failBeforeRename part removeOk =>
      unfold idsCanonical at h ⊢
      simp only [runFileOp, DataManager.clear_all_pins, DataManager.save_pins,
        DataManager.load_pins] at h ⊢
      exact h

theorem idsCanonical_runFileOps (fs : FS) (ops : List FileOp)
    (hops : ∀ op ∈ ops, op.is_delete = false) (h : idsCanonical fs) :
    idsCanonical (runFileOps fs ops) := by
  induction ops generalizing fs with
  | nil => exact h
  | cons op rest ih =>
    exact ih (runFileOp fs op) (fun o ho => hops o (List.mem_cons_of_mem _ ho))
      (idsCanonical_runFileOp fs op (hops op (List.mem_cons_self _ _)) h)

/-- C1 amended: over every sequence of add and clear operations (no deletes)
starting from a fresh store, the records of the file backend have pairwise
distinct ids; a delete followed by an add can instead duplicate an id. -/
theorem file_ids_nodup_no_delete (ops : List FileOp)
    (hops : ∀ op ∈ ops, op.is_delete = false) :
    ((DataManager.load_pins (runFileOps freshFS ops)).map Pin.id).Nodup := by
  have hc : idsCanonical (runFileOps freshFS ops) :=
    idsCanonical_runFileOps freshFS ops hops (by simp [idsCanonical, freshFS,
      DataManager.load_pins])
  rw [hc]
  exact List.nodup_range' 1 _

/-- Witness for `file_ids_nodup_no_delete`: two adds and a clear and an add
produce distinct ids. -/
theorem file_ids_nodup_no_delete_witness :
    ((DataManager.load_pins (runFileOps freshFS
        [FileOp.add 1 "a" "b" "c" 0 0 false 0 .ok,
         FileOp.add 2 "a" "b" "c" 0 0 false 1 .ok,
         FileOp.clear .ok,
         FileOp.add 3 "a" "b" "c" 0 0 false 2 .ok])).map Pin.id).Nodup :=
  file_ids_nodup_no_delete
    [FileOp.add 1 "a" "b" "c" 0 0 false 0 .ok,
     FileOp.add 2 "a" "b" "c" 0 0 false 1 .ok,
     FileOp.clear .ok,
     FileOp.add 3 "a" "b" "c" 0 0 false 2 .ok]
    (by intro op hop; fin_cases hop <;> rfl)

/-- A DDL statement of the schema bootstrap, as issued by
`DatabaseManager._create_table` (`database_manager.py:53-74`). -/
inductive SqlStmt
  | createTableIfNotExists (table : String) (columns : List String)
  | alterTableAddColumnIfNotExists (table : String) (column : String)
deriving DecidableEq, Repr

/-- Whether a statement is an idempotent "add column if missing" statement. -/
def SqlStmt.isAddColumnIfMissing : SqlStmt → Bool
  | .alterTableAddColumnIfNotExists _ _ => true
  | _ => false

/-- The statements `DatabaseManager._create_table` executes
(`database_manager.py:56-70`): a single `CREATE TABLE IF NOT EXISTS
chocolate_pins (...)` and nothing else. -/
def DatabaseManager.create_table_stmts : List SqlStmt :=
  [SqlStmt.createTableIfNotExists "chocolate_pins"
    ["id", "price", "location", "brand", "fact", "lat", "lon",
     "is_multi_pack", "timestamp", "created_at"]]

/-- C2 counterexample: the schema bootstrap issues no "add column if
missing" statement at all. -/
theorem create_table_no_add_column :
    DatabaseManager.create_table_stmts.any SqlStmt.isAddColumnIfMissing
      = false := by
  decide

/-- C2 amended: the schema bootstrap consists of exactly one idempotent
`CREATE TABLE IF NOT EXISTS` statement covering all columns of the current
schema revision; it issues no separate "add column if missing" statement, so
a column added in a later revision is not guaranteed to exist in a
pre-existing table. -/
theorem create_table_stmts_spec :
    DatabaseManager.create_table_stmts =
      [SqlStmt.createTableIfNotExists "chocolate_pins"
        ["id", "price", "location", "brand", "fact", "lat", "lon",
         "is_multi_pack", "timestamp", "created_at"]] ∧
    DatabaseManager.create_table_stmts.all
      (fun s => ! s.isAddColumnIfMissing) = true := by
  exact ⟨rfl, by decide⟩

/-- Embeds `DatabaseManager._init_database` (`database_manager.py:24-51`):
`env` is `os.getenv('DATABASE_URL')`; an absent or falsy (empty) value
returns `False`; otherwise `psycopg2.connect` must succeed (`connectOk`) and
`_create_table` must not raise (`schemaOk`); any exception is caught and
yields `False`. -/
def DatabaseManager.init_database (env : Option String)
    (connectOk schemaOk : Bool) : Bool :=
  match env with
  | none => false
  | some url => if url = "" then false else connectOk && schemaOk

/-- C5 counterexample: with `DATABASE_URL` present but the connection
attempt failing, the facade still falls back to the file backend, so absence
of the variable is not the sole trigger. -/
theorem fallback_not_only_on_absent_url :
    DatabaseManager.init_database (some "postgres:db") false true = false ∧
    (some "postgres:db" : Option String) ≠ none := by
  exact ⟨rfl, by decide⟩

/-- C5 amended: absence of `DATABASE_URL` does guarantee file-backend
fallback, but it is not the sole trigger: an empty value, a failed
connection attempt, or a failed schema bootstrap with the variable present
also fall back.  Fallback happens exactly when the variable is absent or
empty, the connection fails, or the bootstrap fails. -/
theorem init_database_fallback_iff (env : Option String)
    (connectOk schemaOk : Bool) :
    DatabaseManager.init_database env connectOk schemaOk = false ↔
      (env = none ∨ env = some "" ∨ connectOk = false ∨ schemaOk = false) := by
  cases env with
  | none => simp [DatabaseManager.init_database]
  | some url =>
    by_cases hurl : url = ""
    · subst hurl
      simp [DatabaseManager.init_database]
    · simp only [DatabaseManager.init_database, if_neg hurl]
      cases connectOk <;> cases schemaOk <;> simp [hurl]

/-- A row of the `chocolate_pins` table (`database_manager.py:57-70`). -/
structure DbRow where
  id : Nat
  price : Int
  location : String
  brand : String
  fact : String
  lat : Int
  lon : Int
  is_multi_pack : Bool
  timestamp : Nat
  created_at : Nat
deriving DecidableEq, Repr

/-- The relational backend's state: the rows of `chocolate_pins` and the
next value of the `id SERIAL` sequence. -/
structure DbState where
  rows : List DbRow
  nextId : Nat
deriving DecidableEq, Repr

/-- Embeds `DatabaseManager.delete_pin`, database branch
(`database_manager.py:158-165`): `DELETE FROM chocolate_pins WHERE id = %s`,
returning `cursor.rowcount > 0`; a statement failure (`dbOk = false`) is
caught, removes nothing and returns `False`. -/
def db_delete_pin (dbOk : Bool) (db : DbState) (pin_id : Int) :
    Bool × DbState :=
  if dbOk then
    let remaining := db.rows.filter (fun r => (r.id : Int) ≠ pin_id)
    (decide (remaining.length < db.rows.length),
      { rows := remaining, nextId := db.nextId })
  else
    (false, db)

/-- C9: under the relational backend, `delete_pin` returns success iff at
least one row was removed, and deleting an id present in no row returns
failure and leaves the rows (hence the row count) unchanged. -/
theorem db_delete_pin_spec (dbOk : Bool) (db : DbState) (pin_id : Int) :
    ((db_delete_pin dbOk db pin_id).1 = true ↔
      (db_delete_pin dbOk db pin_id).2.rows.length < db.rows.length) ∧
    (pin_id ∉ db.rows.map (fun r => (r.id : Int)) →
      db_delete_pin dbOk db pin_id = (false, db)) := by
  constructor
  · cases dbOk with
    | false => simp [db_delete_pin]
    | true => simp [db_delete_pin]
  · intro hmem
    cases dbOk with
    | false => rfl
    | true =>
      have hfilter : db.rows.filter (fun r => (r.id : Int) ≠ pin_id)
          = db.rows := by
        apply List.filter_eq_self.mpr
        intro r hr
        simp only [ne_eq, decide_eq_true_eq]
        intro hid
        exact hmem (List.mem_map.mpr ⟨r, hr, hid⟩)
      show (decide ((db.rows.filter (fun r => (r.id : Int) ≠ pin_id)).length
              < db.rows.length),
            (DbState.mk (db.rows.filter (fun r => (r.id : Int) ≠ pin_id))
              db.nextId))
          = (false, db)
      rw [hfilter]
      simp

/-- Witness for `db_delete_pin_spec`: on a one-row table, deleting the
present id 1 succeeds and removes the row; deleting the absent id 2 fails
and leaves the table unchanged. -/
theorem db_delete_pin_spec_witness :
    ((db_delete_pin true (DbState.mk [DbRow.mk 1 2 "a" "b" "c" 0 0 false 0 0] 2)
        1).1 = true ↔
      (db_delete_pin true (DbState.mk [DbRow.mk 1 2 "a" "b" "c" 0 0 false 0 0] 2)
        1).2.rows.length < 1) ∧
    db_delete_pin true (DbState.mk [DbRow.mk 1 2 "a" "b" "c" 0 0 false 0 0] 2) 2
      = (false, DbState.mk [DbRow.mk 1 2 "a" "b" "c" 0 0 false 0 0] 2) := by
  constructor
  · exact (db_delete_pin_spec true
      (DbState.mk [DbRow.mk 1 2 "a" "b" "c" 0 0 false 0 0] 2) 1).1
  · exact (db_delete_pin_spec true
      (DbState.mk [DbRow.mk 1 2 "a" "b" "c" 0 0 false 0 0] 2) 2).2 (by decide)

/-- Embeds `DatabaseManager.add_pin`, database branch (`database_manager.py:132-142`):
a single-row `INSERT`; the table assigns `id` from the `SERIAL` sequence and
both timestamp columns default to the current instant `now`; a statement
failure is caught and returns `False`. -/
def db_add_pin (dbOk : Bool) (db : DbState) (price : Int)
    (location brand fact : String) (lat lon : Int) (is_multi_pack : Bool)
    (now : Nat) : Bool × DbState :=
  if dbOk then
    (true, DbState.mk
      (db.rows ++ [DbRow.mk db.nextId price location brand fact lat lon
        is_multi_pack now now])
      (db.nextId + 1))
  else
    (false, db)

/-- Embeds `DatabaseManager.clear_all_pins`, database branch
(`database_manager.py:177-184`): `DELETE FROM chocolate_pins`. -/
def db_clear_all_pins (dbOk : Bool) (db : DbState) : Bool × DbState :=
  if dbOk then (true, DbState.mk [] db.nextId) else (false, db)

/-- Embeds `DatabaseManager.get_pin_count`, database branch
(`database_manager.py:196-203`): `SELECT COUNT(*)`, with `0` on failure. -/
def db_get_pin_count (dbOk : Bool) (db : DbState) : Nat :=
  if dbOk then db.rows.length else 0

/-- Shape of a row as returned by the database branch of `load_pins`
(`database_manager.py:87-107`): the selected columns as a record. -/
def rowToPin (r : DbRow) : Pin :=
  Pin.mk r.price r.location r.brand r.fact r.lat r.lon r.timestamp r.id
    r.is_multi_pack

/-- Embeds `DatabaseManager.load_pins`, database branch
(`database_manager.py:86-111`): all rows ordered by `created_at DESC`
(stably), `[]` on failure. -/
def db_load_pins (dbOk : Bool) (db : DbState) : List Pin :=
  if dbOk then
    (db.rows.mergeSort (fun a b => b.created_at ≤ a.created_at)).map rowToPin
  else
    []

/-- The state of one `DataManager` instance: its chosen data directory and
the file system it owns. -/
structure DataManagerState where
  data_dir : String
  fs : FS
deriving DecidableEq, Repr

/-- Embeds `DataManager.__init__` (`data_manager.py:12-21`): record the directory
and ensure the pins file exists. -/
def DataManager.init (data_dir : String) (fs0 : FS) (out0 : WriteOutcome) :
    DataManagerState :=
  DataManagerState.mk data_dir (DataManager.ensure_file_exists fs0 out0)

/-- The state of the `DatabaseManager` facade (`database_manager.py:14-22`):
the backend-selection flag, whether a connection object was established, the
file backend (constructed on fallback; carried here unconditionally, unused
when the database is active) and the relational state. -/
structure DatabaseManagerState where
  use_database : Bool
  connection : Bool
  json : DataManagerState
  db : DbState
deriving DecidableEq, Repr

/-- Embeds `DatabaseManager.__init__` (`database_manager.py:14-22`):
`use_database := _init_database(...)`; the connection object exists iff the
URL was present and non-empty and the connect call succeeded (it can exist
even when the schema bootstrap then failed). -/
def DatabaseManager.init (env : Option String) (connectOk schemaOk : Bool)
    (data_dir : String) (fs0 : FS) (out0 : WriteOutcome) (db0 : DbState) :
    DatabaseManagerState :=
  DatabaseManagerState.mk
    (DatabaseManager.init_database env connectOk schemaOk)
    (match env with
      | none => false
      | some url => url ≠ "" && connectOk)
    (DataManager.init data_dir fs0 out0)
    db0

/-- Embeds `DatabaseManager.load_pins` (`database_manager.py:76-111`). -/
def DatabaseManager.load_pins (st : DatabaseManagerState) (dbOk : Bool) :
    List Pin :=
  if ¬ st.use_database then DataManager.load_pins st.json.fs
  else db_load_pins dbOk st.db

/-- Embeds `DatabaseManager.add_pin` (`database_manager.py:113-142`). -/
def DatabaseManager.add_pin (st : DatabaseManagerState) (price : Int)
    (location brand fact : String) (lat lon : Int) (is_multi_pack : Bool)
    (now : Nat) (out : WriteOutcome) (dbOk : Bool) :
    Bool × DatabaseManagerState :=
  if ¬ st.use_database then
    let r := DataManager.add_pin st.json.fs price location brand fact lat lon
      is_multi_pack now out
    (r.1, { st with json := { st.json with fs := r.2 } })
  else
    let r := db_add_pin dbOk st.db price location brand fact lat lon
      is_multi_pack now
    (r.1, { st with db := r.2 })

/-- Embeds `DatabaseManager.delete_pin` (`database_manager.py:144-165`): under
fallback the identifier is a positional index, under the database it is the
primary key. -/
def DatabaseManager.delete_pin (st : DatabaseManagerState) (pin_id : Int)
    (out : WriteOutcome) (dbOk : Bool) : Bool × DatabaseManagerState :=
  if ¬ st.use_database then
    let r := DataManager.delete_pin st.json.fs pin_id out
    (r.1, { st with json := { st.json with fs := r.2 } })
  else
    let r := db_delete_pin dbOk st.db pin_id
    (r.1, { st with db := r.2 })

/-- Embeds `DatabaseManager.clear_all_pins` (`database_manager.py:167-184`). -/
def DatabaseManager.clear_all_pins (st : DatabaseManagerState)
    (out : WriteOutcome) (dbOk : Bool) : Bool × DatabaseManagerState :=
  if ¬ st.use_database then
    let r := DataManager.clear_all_pins st.json.fs out
    (r.1, { st with json := { st.json with fs := r.2 } })
  else
    let r := db_clear_all_pins dbOk st.db
    (r.1, { st with db := r.2 })

/-- Embeds `DatabaseManager.get_pin_count` (`database_manager.py:186-203`). -/
def DatabaseManager.get_pin_count (st : DatabaseManagerState) (dbOk : Bool) :
    Nat :=
  if ¬ st.use_database then DataManager.get_pin_count st.json.fs
  else db_get_pin_count dbOk st.db

/-- The dictionary returned by `get_data_info`: each possible key as an
optional field, `none` meaning the key is absent from the dictionary. -/
structure DataInfo where
  storage_type : Option String := none
  data_directory : Option String := none
  pins_file : Option String := none
  file_exists : Option Bool := none
  pin_count : Option Nat := none
  file_size_bytes : Option Nat := none
  is_render_environment : Option Bool := none
  database_url : Option String := none
  table_name : Option String := none
  connection_status : Option String := none
  error : Option String := none
deriving DecidableEq, Repr

/-- Embeds `DataManager.get_data_info` (`data_manager.py:191-205`); `fsize` models
`os.path.getsize` on the pins file. -/
def DataManager.get_data_info (fsize : FileContent → Nat)
    (dm : DataManagerState) : DataInfo :=
  { data_directory := some dm.data_dir,
    pins_file := some (dm.data_dir ++ "/map_pins.json"),
    file_exists := some dm.fs.realFile.isSome,
    pin_count := some (DataManager.get_pin_count dm.fs),
    file_size_bytes := some (match dm.fs.realFile with
      | some c => fsize c
      | none => 0),
    is_render_environment := some (dm.data_dir.startsWith "/opt/render") }

/-- Embeds `DatabaseManager.get_data_info` (`database_manager.py:205-235`): under
fallback, the file backend's info with a `storage_type` tag added; under the
database, a fresh dictionary (`errMsg` models `str(e)` of a failed count
query). -/
def DatabaseManager.get_data_info (fsize : FileContent → Nat)
    (env : Option String) (dbOk : Bool) (errMsg : String)
    (st : DatabaseManagerState) : DataInfo :=
  if ¬ st.use_database then
    let info := DataManager.get_data_info fsize st.json
    { info with storage_type := some "JSON (fallback)" }
  else if dbOk then
    { storage_type := some "PostgreSQL Database",
      database_url := some (env.getD "Not set"),
      pin_count := some st.db.rows.length,
      table_name := some "chocolate_pins",
      connection_status :=
        some (if st.connection then "Connected" else "Disconnected") }
  else
    { storage_type := some "PostgreSQL Database (Error)",
      error := some errMsg,
      connection_status := some "Error" }

/-- C4 counterexample: with no connection string configured, the facade's
`get_data_info` does not equal the file backend's — it carries an extra
`storage_type` entry. -/
theorem facade_info_differs_from_json_info :
    DatabaseManager.get_data_info (fun _ => 0) none false ""
        (DatabaseManager.init none true true "/data" freshFS .ok
          (DbState.mk [] 1)) ≠
      DataManager.get_data_info (fun _ => 0)
        (DatabaseManager.init none true true "/data" freshFS .ok
          (DbState.mk [] 1)).json := by
  intro h
  have hst := congrArg DataInfo.storage_type h
  simp [DatabaseManager.get_data_info, DataManager.get_data_info,
    DatabaseManager.init, DatabaseManager.init_database] at hst

/-- C4 amended: constructing the facade with no connection string configured
makes `load_pins`, `add_pin`, `delete_pin`, `clear_all_pins` and
`get_pin_count` behave identically to direct calls on the file backend
(same return value, same resulting file state); `get_data_info` returns the
file backend's info with the single additional entry
`storage_type = "JSON (fallback)"`. -/
theorem facade_fallback_delegates (c s : Bool) (dir : String) (fs0 : FS)
    (out0 : WriteOutcome) (db0 : DbState) (dbOk : Bool) (price : Int)
    (location brand fact : String) (lat lon : Int) (m : Bool) (now : Nat)
    (out : WriteOutcome) (i : Int) (fsize : FileContent → Nat)
    (errMsg : String) :
    let st := DatabaseManager.init none c s dir fs0 out0 db0
    DatabaseManager.load_pins st dbOk = DataManager.load_pins st.json.fs ∧
    (DatabaseManager.add_pin st price location brand fact lat lon m now out
        dbOk).1 =
      (DataManager.add_pin st.json.fs price location brand fact lat lon m now
        out).1 ∧
    (DatabaseManager.add_pin st price location brand fact lat lon m now out
        dbOk).2.json.fs =
      (DataManager.add_pin st.json.fs price location brand fact lat lon m now
        out).2 ∧
    (DatabaseManager.delete_pin st i out dbOk).1 =
      (DataManager.delete_pin st.json.fs i out).1 ∧
    (DatabaseManager.delete_pin st i out dbOk).2.json.fs =
      (DataManager.delete_pin st.json.fs i out).2 ∧
    (DatabaseManager.clear_all_pins st out dbOk).1 =
      (DataManager.clear_all_pins st.json.fs out).1 ∧
    (DatabaseManager.clear_all_pins st out dbOk).2.json.fs =
      (DataManager.clear_all_pins st.json.fs out).2 ∧
    DatabaseManager.get_pin_count st dbOk =
      DataManager.get_pin_count st.json.fs ∧
    DatabaseManager.get_data_info fsize none dbOk errMsg st =
      { DataManager.get_data_info fsize st.json with
          storage_type := some "JSON (fallback)" } := by
  refine ⟨rfl, rfl, rfl, rfl, rfl, rfl, rfl, rfl, rfl⟩

/-- Result of a Python call at the presentation layer: a returned value, or
an uncaught exception (named by its class), each with the resulting state. -/
inductive PyOutcome (σ : Type) (α : Type)
  | ok (a : α) (s : σ)
  | exn (e : String) (s : σ)
deriving DecidableEq, Repr

/-- Number of parameters of `DatabaseManager.add_pin`
(`database_manager.py:113`): `price, location, brand, fact, lat, lon,
is_multi_pack`. -/
def add_pin_num_params : Nat := 7

/-- Number of those parameters that carry a default value: none do. -/
def add_pin_num_defaults : Nat := 0

/-- Number of positional arguments `main.save_pin` passes to
`database_manager.add_pin` (`main.py:22`): `price, location, brand, fact,
lat, lon`. -/
def save_pin_num_args : Nat := 6

/-- Python's positional-call check: binding succeeds iff the argument count
lies between the number of parameters without defaults and the number of
parameters; otherwise the call raises `TypeError` before the body runs. -/
def pyArityOk (nargs nparams ndefaults : Nat) : Bool :=
  decide (nparams - ndefaults ≤ nargs) && decide (nargs ≤ nparams)

/-- Embeds `main.save_pin` (`main.py:20-22`):
`return database_manager.add_pin(price, location, brand, fact, lat, lon)`.
The arity check precedes execution of `add_pin`'s body; it fails (6
arguments against 7 mandatory parameters), so `TypeError` propagates —
`save_pin` catches nothing — and the state is untouched.  The successful
branch is uninhabited: with six arguments `is_multi_pack` would have no
binding, which is what `absurd` records. -/
def save_pin (price : Int) (location brand fact : String) (lat lon : Int)
    (st : DatabaseManagerState) : PyOutcome DatabaseManagerState Bool :=
  if h : pyArityOk save_pin_num_args add_pin_num_params add_pin_num_defaults
      = true then
    absurd h (by decide)
  else
    .exn "TypeError" st

/-- C3: for every input and every facade state, the presentation layer's
`save_pin` raises `TypeError` — the call passes six arguments where
`add_pin` requires seven and `is_multi_pack` has no default — and stores
nothing: the state is returned unchanged, so no observation can ever be
added through the UI form path. -/
theorem save_pin_always_raises (price : Int) (location brand fact : String)
    (lat lon : Int) (st : DatabaseManagerState) :
    save_pin price location brand fact lat lon st = .exn "TypeError" st ∧
    pyArityOk save_pin_num_args add_pin_num_params add_pin_num_defaults
      = false := by
  exact ⟨rfl, rfl⟩

/-- A JSON value, as produced by `json.load` in
`DatabaseManager.migrate_from_json` (`database_manager.py:253-254`). -/
inductive Json
  | null
  | bool (b : Bool)
  | num (n : Int)
  | str (s : String)
  | arr (items : List Json)
  | obj (fields : List (String × Json))
deriving Repr

/-- Whether a JSON value is an object (a Python `dict`). -/
def Json.isObj : Json → Bool
  | .obj _ => true
  | _ => false

/-- Python iteration `for pin in pins` over a JSON value: an array yields
its items, a dict its keys, a string its characters; `None`, booleans and
numbers are not iterable (`TypeError`). -/
def pyIter : Json → Option (List Json)
  | .arr items => some items
  | .obj fields => some (fields.map (fun kv => Json.str kv.1))
  | .str s => some (s.data.map (fun c => Json.str (String.singleton c)))
  | _ => none

/-- Python `pin.get(key, default)` on a dict. -/
def jGet (fields : List (String × Json)) (key : String) (dflt : Json) :
    Json :=
  match fields.find? (fun kv => kv.1 == key) with
  | some kv => kv.2
  | none => dflt

/-- The database `add_pin` invoked with dynamically-typed values from a
migrated record (`database_manager.py:258-266`): the `INSERT` succeeds when
the statement executes (`dbOk`) and the values adapt to the column types;
otherwise `add_pin` catches the error and returns `False`. -/
def db_add_pin_json (dbOk : Bool) (db : DbState) (now : Nat)
    (price location brand fact lat lon multi : Json) : Bool × DbState :=
  if dbOk then
    match price, location, brand, fact, lat, lon, multi with
    | .num p, .str l, .str b, .str f, .num la, .num lo, .bool m =>
        (true, DbState.mk
          (db.rows ++ [DbRow.mk db.nextId p l b f la lo m now now])
          (db.nextId + 1))
    | _, _, _, _, _, _, _ => (false, db)
  else
    (false, db)

/-- One iteration of the migration loop (`database_manager.py:257-266`):
extract the seven fields with their defaults and call `add_pin`, discarding
its boolean result. -/
def migrate_add (dbOk : Bool) (db : DbState) (now : Nat)
    (fields : List (String × Json)) : Bool × DbState :=
  db_add_pin_json dbOk db now
    (jGet fields "price" (.num 0)) (jGet fields "location" (.str ""))
    (jGet fields "brand" (.str "")) (jGet fields "fact" (.str ""))
    (jGet fields "lat" (.num 0)) (jGet fields "lon" (.num 0))
    (jGet fields "is_multi_pack" (.bool false))

/-- The migration loop over the iterated items: a non-dict item makes
`pin.get` raise `AttributeError`, which the surrounding handler turns into
`False` — rows already inserted remain (each statement auto-commits). -/
def migrateLoop (dbOk : Bool) (now : Nat) (db : DbState) :
    List Json → Bool × DbState
  | [] => (true, db)
  | .obj fields :: rest =>
      migrateLoop dbOk now (migrate_add dbOk db now fields).2 rest
  | _ :: _ => (false, db)

/-- Embeds `DatabaseManager.migrate_from_json` (`database_manager.py:237-273`):
`fileContent` is `none` when opening or `json.load` raises, otherwise the
parsed value. -/
def migrate_from_json (useDb dbOk : Bool) (fileContent : Option Json)
    (now : Nat) (db : DbState) : Bool × DbState :=
  if ¬ useDb then (false, db)
  else
    match fileContent with
    | none => (false, db)
    | some j =>
      match pyIter j with
      | none => (false, db)
      | some items => migrateLoop dbOk now db items

/-- C10 counterexample: the backend is active and the file parses as JSON
(the array `[1]`), yet `migrate_from_json` returns `false`: the element is
not an object, so `pin.get` raises `AttributeError` inside the loop. -/
theorem migrate_false_on_parsed_json :
    (migrate_from_json true true (some (Json.arr [Json.num 1])) 0
      (DbState.mk [] 1)).1 = false := rfl

theorem migrateLoop_all_obj (dbOk : Bool) (now : Nat) (items : List Json) :
    ∀ db : DbState, (∀ j ∈ items, j.isObj = true) →
      (migrateLoop dbOk now db items).1 = true := by
  induction items with
  | nil => intro db _; rfl
  | cons j rest ih =>
    intro db h
    cases j with
    | obj fields =>
        exact ih _ (fun x hx => h x (List.mem_cons_of_mem _ hx))
    | null => exact absurd (h _ (List.mem_cons_self _ _)) (by simp [Json.isObj])
    | bool b => exact absurd (h _ (List.mem_cons_self _ _)) (by simp [Json.isObj])
    | num n => exact absurd (h _ (List.mem_cons_self _ _)) (by simp [Json.isObj])
    | str s => exact absurd (h _ (List.mem_cons_self _ _)) (by simp [Json.isObj])
    | arr xs => exact absurd (h _ (List.mem_cons_self _ _)) (by simp [Json.isObj])

/-- C10 amended: when the database backend is active and the file parses as
a JSON array whose elements are all objects, `migrate_from_json` returns
`true` even if some or all per-record adds fail (their boolean results are
discarded — `dbOk` is arbitrary below); it returns `false` when the backend
is inactive, when reading or parsing the file fails, and also when the
parsed value makes the loop raise (a non-object element, or a non-iterable
value). -/
theorem migrate_from_json_spec (useDb dbOk : Bool) (c : Option Json)
    (now : Nat) (db : DbState) (items : List Json) :
    migrate_from_json false dbOk c now db = (false, db) ∧
    migrate_from_json useDb dbOk none now db = (false, db) ∧
    ((∀ j ∈ items, j.isObj = true) →
      (migrate_from_json true dbOk (some (Json.arr items)) now db).1
        = true) := by
  refine ⟨rfl, ?_, ?_⟩
  · cases useDb <;> rfl
  · intro h
    exact migrateLoop_all_obj dbOk now items db h

/-- Witness for `migrate_from_json_spec`: an inactive backend and an
unreadable file both fail; an active backend migrating one record returns
`true` even though the add itself fails (`dbOk = false`). -/
theorem migrate_from_json_spec_witness :
    migrate_from_json false true (some (Json.arr [])) 0 (DbState.mk [] 1)
        = (false, DbState.mk [] 1) ∧
    migrate_from_json true true none 0 (DbState.mk [] 1)
        = (false, DbState.mk [] 1) ∧
    (migrate_from_json true false
        (some (Json.arr [Json.obj [("price", Json.num 3)]])) 0
        (DbState.mk [] 1)).1 = true := by
  refine ⟨(migrate_from_json_spec false true (some (Json.arr [])) 0
      (DbState.mk [] 1) []).1,
    (migrate_from_json_spec true true none 0 (DbState.mk [] 1) []).2.1,
    (migrate_from_json_spec true false none 0 (DbState.mk [] 1)
      [Json.obj [("price", Json.num 3)]]).2.2 ?_⟩
  intro j hj
  rw [List.mem_singleton] at hj
  subst hj
  rfl
